import Mathlib

/-!
# Verification of the TradingApp shared-memory core

A shallow embedding of the shared-memory trading transport in
`src/C++/src` (the `TradingData` record, the writer loop of `main.cpp`,
the POSIX region-manager wrappers of `shared_code.h`, and the
`PythonLauncher` process supervisor), together with theorems settling
the specification's claims about it.
-/

namespace TradingApp

/-! Record layout.

`struct TradingData` (src/C++/src/include/shared_code.h, lines 22-27 and
src/unnamed/part_003):

    struct TradingData {
        std::atomic<double> price{0.0};
        std::atomic<uint64_t> timestamp{0};
        std::atomic<int32_t> volume{0};
        std::atomic<bool> valid{false};
    };

We embed the C++ (Itanium ABI, x86-64 Linux) struct-layout rule: each
field is placed at the running offset rounded up to the field's
alignment, and the struct size is the end offset rounded up to the
largest field alignment.  On this ABI `std::atomic<double>` and
`std::atomic<uint64_t>` have size 8 and alignment 8, `std::atomic<int32_t>`
size 4 alignment 4, and `std::atomic<bool>` size 1 alignment 1. -/

/-- A C struct field: its name, size in bytes, and alignment in bytes. -/
structure CField where
  name : String
  size : Nat
  align : Nat
deriving DecidableEq, Repr

/-- Round `o` up to the next multiple of `a` (alignment rule; `a = 0`
degenerates to the identity, unused for real fields). -/
def alignUp (o a : Nat) : Nat :=
  if a = 0 then o else ((o + a - 1) / a) * a

/-- Offsets assigned to a field list starting at running offset `o`,
per the Itanium C++ ABI layout rule for standard-layout structs. -/
def fieldOffsets : List CField → Nat → List (String × Nat)
  | [], _ => []
  | f :: fs, o =>
    let off := alignUp o f.align
    (f.name, off) :: fieldOffsets fs (off + f.size)

/-- End offset (one past the last byte of the last field) of a field
list laid out from running offset `o`. -/
def layoutEnd : List CField → Nat → Nat
  | [], o => o
  | f :: fs, o => layoutEnd fs (alignUp o f.align + f.size)

/-- Largest field alignment (struct alignment); 1 for an empty struct. -/
def maxAlign (fs : List CField) : Nat :=
  fs.foldl (fun a f => max a f.align) 1

/-- Total size of the struct: end offset rounded up to the struct
alignment (tail padding). -/
def structSize (fs : List CField) : Nat :=
  alignUp (layoutEnd fs 0) (maxAlign fs)

/-- The fields of `struct TradingData`, in declaration order, with
their x86-64 Linux sizes and alignments. -/
def tradingDataFields : List CField :=
  [⟨"price", 8, 8⟩, ⟨"timestamp", 8, 8⟩, ⟨"volume", 4, 4⟩, ⟨"valid", 1, 1⟩]

/-- Field offsets of `TradingData` as laid out by the compiler. -/
def tradingDataOffsets : List (String × Nat) :=
  fieldOffsets tradingDataFields 0

/-- Value of `sizeof(TradingData)` as laid out by the compiler. -/
def tradingDataSize : Nat :=
  structSize tradingDataFields

/-! Record state and the writer's stores.

The writer (`main` in src/C++/src/main.cpp) publishes one tick with the
four plain atomic stores of lines 88-91:

    shared_data->price.store(current_price);
    shared_data->volume.store(current_volume);
    shared_data->timestamp.store(timestamp);
    shared_data->valid.store(true);

There is no sequence counter anywhere in the record or the writer.  We
model the record state with `price` as the stored numeric value (the
embedded fragment only stores and loads it, never computes with it),
and the writer as the list of store events it issues.  The event
alphabet also contains `incrSeq`, the seqlock sequence-counter
increment the specification describes, so that claims about it can be
stated; the embedded writer never emits it. -/

/-- The shared record's mutable state: one value per field of
`TradingData`.  Initial values are the member initializers of the
struct (price 0.0, timestamp 0, volume 0, valid false). -/
structure TradingData where
  price : ℚ
  timestamp : Nat
  volume : Int
  valid : Bool
deriving DecidableEq, Repr

/-- The value-initialized record `TradingData{}` produced by the
placement `new(raw_memory_) T{}` in the `SharedMemory<T>` constructor
(src/C++/src/include/shared_code.h, line 58) via the member
initializers of the struct. -/
def initTradingData : TradingData :=
  { price := 0, timestamp := 0, volume := 0, valid := false }

/-- One store the writer can issue on the shared record.  The first
four constructors are the atomic stores appearing in the source;
`incrSeq` is the seqlock sequence-counter increment of the
specification's protocol, included in the alphabet so claims about it
can be stated (no source store maps to it). -/
inductive WriterEvent where
  | storePrice (p : ℚ)
  | storeVolume (v : Int)
  | storeTimestamp (t : Nat)
  | storeValid (b : Bool)
  | incrSeq
deriving DecidableEq, Repr

/-- Effect of one store on the record state.  `incrSeq` is a no-op on
the state because `TradingData` has no sequence-counter field to
increment. -/
def applyEvent (d : TradingData) : WriterEvent → TradingData
  | .storePrice p => { d with price := p }
  | .storeVolume v => { d with volume := v }
  | .storeTimestamp t => { d with timestamp := t }
  | .storeValid b => { d with valid := b }
  | .incrSeq => d

/-- Run a list of stores on a record state, in order. -/
def runEvents (d : TradingData) (es : List WriterEvent) : TradingData :=
  es.foldl applyEvent d

/-- The stores of one publish by the writer, in the program order of
src/C++/src/main.cpp lines 88-91: price, volume, timestamp, then
valid := true. -/
def publishEvents (p : ℚ) (v : Int) (t : Nat) : List WriterEvent :=
  [.storePrice p, .storeVolume v, .storeTimestamp t, .storeValid true]

/-- Arguments of one publish: (price, volume, timestamp). -/
abbrev Pub := ℚ × Int × Nat

/-- The full store trace of the writer loop for a list of ticks: the
concatenation of each tick's publish stores.  Initialisation
(`new T{}`) precedes the trace and shutdown (signal handler, loop exit,
destructor detach/destroy) issues no store on the record. -/
def writerEvents (pubs : List Pub) : List WriterEvent :=
  (pubs.map fun pv => publishEvents pv.1 pv.2.1 pv.2.2).flatten

/-- Record state after the first `k` stores of the writer trace,
starting from the value-initialized record. -/
def writerStateAt (pubs : List Pub) (k : Nat) : TradingData :=
  runEvents initTradingData ((writerEvents pubs).take k)

/-! Reader observations.

The reader process loads the record's fields one by one (each field is
individually atomic, but no mechanism relates the loads to each
other).  We model a reader racing the writer by the positions in the
writer's store trace at which its three payload loads happen: a load
at position `i` returns the field of the record state after the first
`i` writer stores. -/

/-- The (price, volume, timestamp) triple a reader assembles when its
price load lands after `i` writer stores, its volume load after `j`,
and its timestamp load after `k`. -/
def readerSnapshot (pubs : List Pub) (i j k : Nat) : ℚ × Int × Nat :=
  ((writerStateAt pubs i).price,
   (writerStateAt pubs j).volume,
   (writerStateAt pubs k).timestamp)

/-! Region manager.

The low-level POSIX wrappers of src/C++/src/shared_code.h:

    create_memory_block   (lines 31-60)
    attach_memory_block   (lines 62-78)
    detach_from_memory_block (lines 80-82)
    destroy_memory_block  (lines 84-86)

We model the kernel's shared-memory namespace as an association list
from segment names to their current sizes (`shm_open(O_CREAT|O_EXCL)`
registers a name with size 0; `ftruncate` sets the size; `shm_unlink`
removes the name).  `mmap(nullptr, size, ..., MAP_SHARED, fd, 0)` on a
valid descriptor fails deterministically when `size = 0` (EINVAL) and
otherwise can fail only for resource reasons, which we inject through
a boolean oracle; on Linux it succeeds even when `size` differs from
the object's current size (the size is never compared).  Failures of
`ftruncate` are likewise injected through an oracle. -/

/-- The kernel's shared-memory namespace: registered segment names with
their current sizes. -/
abbrev ShmState := List (String × Nat)

/-- Size of the segment registered under `name`, if any. -/
def segSize (s : ShmState) (name : String) : Option Nat :=
  (s.find? fun p => p.1 = name).map Prod.snd

/-- Register `name` with size `sz` (used by `shm_open(O_CREAT|O_EXCL)`
and `ftruncate`). -/
def segSet (s : ShmState) (name : String) (sz : Nat) : ShmState :=
  (name, sz) :: s.filter fun p => p.1 ≠ name

/-- Remove `name` from the namespace (`shm_unlink`). -/
def segUnlink (s : ShmState) (name : String) : ShmState :=
  s.filter fun p => p.1 ≠ name

/-- The distinct exceptions thrown by the region-manager wrappers, one
per `throw std::runtime_error(...)` site in src/C++/src/shared_code.h. -/
inductive ShmError where
  /-- Thrown as "Shared memory already exists - use attach mode"
  (create, EEXIST). -/
  | alreadyExists
  /-- Thrown as "Failed to create shared memory: ..." (create, other
  shm_open errno). -/
  | createFailed
  /-- Thrown as "Failed to set shared memory size" (create, ftruncate
  failure). -/
  | setSizeFailed
  /-- Thrown as "Failed to map shared memory" (create, mmap failure). -/
  | mapFailed
  /-- Thrown as "Failed to open existing shared memory" (attach,
  shm_open failure). -/
  | openExistingFailed
  /-- Thrown as "Failed to map existing shared memory" (attach, mmap
  failure). -/
  | mapExistingFailed
deriving DecidableEq, Repr

/-- A mapping returned to the caller: its page-aligned start address
and its length in bytes (the `size` argument passed to `mmap`). -/
structure MemBlock where
  addr : Nat
  len : Nat
deriving DecidableEq, Repr

/-- Linux page size, the alignment of every address `mmap` returns. -/
def pageSize : Nat := 4096

/-- Behaviour of `mmap(nullptr, size, PROT_READ|PROT_WRITE, MAP_SHARED, fd, 0)`
on a valid descriptor: it fails when `size = 0` (EINVAL) or when the injected
resource oracle `mmapOk` says so; otherwise returns a page-aligned
mapping of exactly `size` bytes at a fresh address `addr`.  The
requested size is never compared with the object's size. -/
def mmapShared (size : Nat) (mmapOk : Bool) (addr : Nat) : Option MemBlock :=
  if size = 0 ∨ ¬mmapOk then none else some ⟨addr * pageSize, size⟩

/-- Embedding of `create_memory_block(filename, size)`
(src/C++/src/shared_code.h, lines 31-60): `shm_open` with
`O_CREAT|O_EXCL` (EEXIST when the name is taken), then `ftruncate` to
`size` (on failure: close, `shm_unlink`, throw), then `mmap` (on
failure: `shm_unlink`, throw).  `ftruncOk`/`mmapOk` inject the
resource failures of those two calls; `addr` is the fresh page number
the kernel picks for the mapping.  Returns the namespace after the
call together with the thrown error or the returned mapping. -/
def create_memory_block (filename : String) (size : Nat)
    (ftruncOk mmapOk : Bool) (addr : Nat) (s : ShmState) :
    ShmState × Except ShmError MemBlock :=
  if (segSize s filename).isSome then
    (s, .error .alreadyExists)
  else
    let s₁ := segSet s filename 0
    if ¬ftruncOk then
      (segUnlink s₁ filename, .error .setSizeFailed)
    else
      let s₂ := segSet s₁ filename size
      match mmapShared size mmapOk addr with
      | none => (segUnlink s₂ filename, .error .mapFailed)
      | some blk => (s₂, .ok blk)

/-- Embedding of `attach_memory_block(filename, size)`
(src/C++/src/shared_code.h, lines 62-78): `shm_open(filename, O_RDWR, 0)`
(throws when the name is not registered), then `mmap` of the requested
`size` (throws on mmap failure).  No comparison of `size` with the
segment's registered size occurs anywhere. -/
def attach_memory_block (filename : String) (size : Nat)
    (mmapOk : Bool) (addr : Nat) (s : ShmState) :
    Except ShmError MemBlock :=
  if (segSize s filename).isNone then
    .error .openExistingFailed
  else
    match mmapShared size mmapOk addr with
    | none => .error .mapExistingFailed
    | some blk => .ok blk

/-- Embedding of `destroy_memory_block(filename)`
(src/C++/src/shared_code.h, lines 84-86): `shm_unlink` and report
whether it succeeded. -/
def destroy_memory_block (filename : String) (s : ShmState) :
    ShmState × Bool :=
  (segUnlink s filename, (segSize s filename).isSome)

/-! Process address space and `munmap`.

`detach_from_memory_block(block, size)` (src/C++/src/shared_code.h,
lines 80-82) is `munmap(block, size) != -1`.  We model the calling
process's address space as the list of its current mappings.  Per
POSIX/Linux, `munmap(addr, len)` fails with EINVAL exactly when `addr`
is not page-aligned or `len` is zero; otherwise it succeeds — also
when nothing is mapped in the range — removing every whole page that
intersects `[addr, addr + len)` (the length is rounded up to a page
multiple), splitting any mapping that straddles the range. -/

/-- A process's address space: its current mappings. -/
abbrev MapState := List MemBlock

/-- What remains of the single mapping `m` after the byte range
`[u, u + n)` is unmapped: the part of `m` strictly below `u` and the
part at or above `u + n`, each kept only when nonempty. -/
def unmapOne (u n : Nat) (m : MemBlock) : List MemBlock :=
  (if m.addr < u then [⟨m.addr, min m.len (u - m.addr)⟩] else []) ++
  (if max m.addr (u + n) < m.addr + m.len then
    [⟨max m.addr (u + n), m.addr + m.len - max m.addr (u + n)⟩] else [])

/-- A block lying entirely outside the byte range `[u, u + n)`: either
strictly below it (starting below `u` and ending by `u`) or at or
above its end, with positive length. -/
def outsideRange (u n : Nat) (m : MemBlock) : Prop :=
  (m.addr + m.len ≤ u ∧ m.addr < u) ∨ (u + n ≤ m.addr ∧ 0 < m.len)

/-- Embedding of `munmap(addr, len)`: fails (returns `false`, modelling
`-1`/EINVAL) when `addr` is not page-aligned or `len = 0`, leaving the
address space unchanged; otherwise succeeds and removes the pages
covering `[addr, addr + len)` from every mapping. -/
def munmap (st : MapState) (addr len : Nat) : MapState × Bool :=
  if addr % pageSize ≠ 0 ∨ len = 0 then (st, false)
  else ((st.map (unmapOne addr (alignUp len pageSize))).flatten, true)

/-- Embedding of `detach_from_memory_block(block, size)`
(src/C++/src/shared_code.h, lines 80-82): `munmap` the block and
return whether it succeeded (`munmap(block, size) != -1`). -/
def detach_from_memory_block (st : MapState) (addr size : Nat) :
    MapState × Bool :=
  munmap st addr size

/-! RAII wrapper.

`SharedMemory<T>::SharedMemory(filename, create_new)` with
`create_new = true` (src/C++/src/include/shared_code.h, lines 52-62)
calls `create_memory_block(filename, sizeof(T))` and then
value-initializes the record in place with `new(raw_memory_) T{}`.
For `T = TradingData`, `sizeof(T)` is `tradingDataSize`. -/

/-- Embedding of the create path of the `SharedMemory<TradingData>`
constructor: `create_memory_block(filename, sizeof(TradingData))`
followed by placement `new(raw_memory_) TradingData{}`.  On success it
returns the mapping together with the value-initialized record it now
holds; on failure the constructor propagates the thrown error. -/
def sharedMemoryCreate (filename : String) (ftruncOk mmapOk : Bool)
    (addr : Nat) (s : ShmState) :
    ShmState × Except ShmError (MemBlock × TradingData) :=
  match create_memory_block filename tradingDataSize ftruncOk mmapOk addr s with
  | (s₁, .error e) => (s₁, .error e)
  | (s₁, .ok blk) => (s₁, .ok (blk, initTradingData))

/-! Process supervisor.

The supervisor is `trading::PythonLauncher`
(src/C++/src/include/python_launcher.h).  Its state enumeration and
configuration are declared in the repository; the bodies of its member
functions (`start`, `stop`, `update`, ...) are not in the repository —
only the declarations and their callers are — so the start operation
is modelled from the specification. -/

/-- The `PythonLauncher::ProcessState` enumeration
(src/C++/src/include/python_launcher.h, lines 27-33). -/
inductive ProcessState where
  | NOT_STARTED
  | RUNNING
  | TERMINATED
  | CRASHED
  | FAILED_TO_START
deriving DecidableEq, Repr

/-- The `PythonLauncher::Config` fields the start operation consults
(src/C++/src/include/python_launcher.h, lines 38-47). -/
structure LauncherConfig where
  script_path : String
  python_executable : String
deriving DecidableEq, Repr

/-- Modelled from the spec: the body of `PythonLauncher::start()` is
missing from the repository (include/python_launcher.h declares it;
python_launcher.cpp only calls it).  Per the spec, `start()` spawns
the configured executable and "standard process-creation failure
(missing binary, exec permission denied) transitions to
FAILED_TO_START and is reported, never silently swallowed"; on success
the state machine moves `NOT_STARTED --start success--> RUNNING`.
`runnable` is the set of executable paths that name an existing
runnable binary.  Returns the resulting state and the reported
success flag. -/
def launcherStart (cfg : LauncherConfig) (runnable : List String) :
    ProcessState × Bool :=
  if cfg.python_executable ∈ runnable ∧ cfg.script_path ∈ runnable then
    (.RUNNING, true)
  else
    (.FAILED_TO_START, false)

/-! Helper lemmas. -/

/-- The four possible stores of a publish. -/
theorem mem_publishEvents {e : WriterEvent} {p : ℚ} {v : Int} {t : Nat}
    (h : e ∈ publishEvents p v t) :
    e = .storePrice p ∨ e = .storeVolume v ∨ e = .storeTimestamp t ∨
      e = .storeValid true := by
  simp [publishEvents] at h
  tauto

/-- No store in the writer's trace writes `false` into the valid flag. -/
theorem writerEvents_no_store_false {pubs : List Pub} {e : WriterEvent}
    (he : e ∈ writerEvents pubs) : e ≠ .storeValid false := by
  unfold writerEvents at he
  rw [List.mem_flatten] at he
  obtain ⟨l, hl, hel⟩ := he
  rw [List.mem_map] at hl
  obtain ⟨pv, _, rfl⟩ := hl
  rcases mem_publishEvents hel with h | h | h | h <;> subst h <;> simp

/-- A store list containing no `storeValid false` preserves a set valid
flag. -/
theorem valid_preserved {es : List WriterEvent}
    (h : ∀ e ∈ es, e ≠ .storeValid false) {d : TradingData}
    (hd : d.valid = true) : (runEvents d es).valid = true := by
  induction es generalizing d with
  | nil => exact hd
  | cons e es ih =>
    rw [runEvents, List.foldl_cons]
    refine ih (fun x hx => h x (List.mem_cons_of_mem _ hx)) ?_
    have he := h e (List.mem_cons_self ..)
    cases e with
    | storeValid b =>
      cases b with
      | false => exact absurd rfl he
      | true => rfl
    | storePrice p => exact hd
    | storeVolume v => exact hd
    | storeTimestamp t => exact hd
    | incrSeq => exact hd

/-- Every piece `munmap` leaves of a mapping lies entirely outside the
unmapped range. -/
theorem unmapOne_outside {u n : Nat} {m piece : MemBlock}
    (h : piece ∈ unmapOne u n m) : outsideRange u n piece := by
  unfold unmapOne at h
  rw [List.mem_append] at h
  rcases h with h | h
  · by_cases hlt : m.addr < u
    · rw [if_pos hlt, List.mem_singleton] at h
      subst h
      refine Or.inl ⟨?_, hlt⟩
      show m.addr + min m.len (u - m.addr) ≤ u
      omega
    · rw [if_neg hlt] at h
      exact absurd h (List.not_mem_nil _)
  · by_cases hr : max m.addr (u + n) < m.addr + m.len
    · rw [if_pos hr, List.mem_singleton] at h
      subst h
      refine Or.inr ⟨Nat.le_max_right _ _, ?_⟩
      show 0 < m.addr + m.len - max m.addr (u + n)
      omega
    · rw [if_neg hr] at h
      exact absurd h (List.not_mem_nil _)

/-- Unmapping a range leaves a mapping entirely outside it unchanged. -/
theorem unmapOne_of_outside {u n : Nat} {m : MemBlock}
    (h : outsideRange u n m) : unmapOne u n m = [m] := by
  unfold unmapOne
  rcases h with ⟨hend, hlt⟩ | ⟨hge, hpos⟩
  · rw [if_pos hlt, if_neg (by omega : ¬ max m.addr (u + n) < m.addr + m.len)]
    have hmin : min m.len (u - m.addr) = m.len := by omega
    rw [hmin]
    rfl
  · rw [if_neg (by omega : ¬ m.addr < u)]
    have hmax : max m.addr (u + n) = m.addr := by omega
    rw [hmax, if_pos (by omega : m.addr < m.addr + m.len)]
    simp

/-- Unmapping a range from an address space whose every mapping lies
outside the range changes nothing. -/
theorem flatten_unmapOne_of_outside {u n : Nat} {l : MapState}
    (h : ∀ m ∈ l, outsideRange u n m) :
    (l.map (unmapOne u n)).flatten = l := by
  induction l with
  | nil => rfl
  | cons m l ih =>
    rw [List.map_cons, List.flatten_cons,
      unmapOne_of_outside (h m (List.mem_cons_self ..)),
      ih (fun x hx => h x (List.mem_cons_of_mem _ hx))]
    rfl

/-- After `shm_unlink`, the name is no longer registered. -/
theorem segSize_segUnlink (s : ShmState) (name : String) :
    segSize (segUnlink s name) name = none := by
  unfold segSize segUnlink
  have hf : (s.filter fun p => p.1 ≠ name).find? (fun p => p.1 = name) = none := by
    rw [List.find?_eq_none]
    intro p hp
    rw [List.mem_filter] at hp
    simpa using hp.2
  rw [hf]
  rfl

/-- On a fresh name, with `ftruncate` and `mmap` succeeding and a
nonzero size, `create_memory_block` registers the name at the given
size and returns the new mapping. -/
theorem create_memory_block_ok (name : String) (sz : Nat) (addr : Nat)
    (s : ShmState) (hfresh : segSize s name = none) (hsz : sz ≠ 0) :
    create_memory_block name sz true true addr s
      = (segSet (segSet s name 0) name sz, .ok ⟨addr * pageSize, sz⟩) := by
  unfold create_memory_block mmapShared
  simp [hfresh, hsz]

/-! Claim theorems. -/

/-- C1 counterexample: the claim says the shared record is 32 bytes
with a sequence counter at offset 0 and price at offset 8.  In the
code, `TradingData` is 24 bytes, has no field named "sequence", and
its price field sits at offset 0. -/
theorem C1_layout_counterexample :
    tradingDataSize = 24 ∧ tradingDataSize ≠ 32 ∧
    tradingDataOffsets.lookup "price" = some 0 ∧
    tradingDataOffsets.lookup "sequence" = none := by decide

/-- C1 (amended): the shared record layout is exactly 24 bytes: price
(atomic IEEE-754 64-bit float) at offset 0, timestamp (atomic unsigned
64-bit integer) at offset 8, volume (atomic signed 32-bit integer) at
offset 16, a 1-byte valid flag at offset 20, and tail padding at
offsets 21-23; there is no sequence counter field. -/
theorem C1_record_layout :
    tradingDataSize = 24 ∧
    tradingDataOffsets
      = [("price", 0), ("timestamp", 8), ("volume", 16), ("valid", 20)] := by
  decide

/-- C2 counterexample: the claim says every publish increments a
sequence counter before and after the payload stores (two increments
per publish).  A concrete publish contains zero sequence increments,
and its first store is the price store, not an increment. -/
theorem C2_publish_counterexample :
    (publishEvents 100 1000000 1700000000).count .incrSeq = 0 ∧
    (publishEvents 100 1000000 1700000000).count .incrSeq ≠ 2 ∧
    (publishEvents 100 1000000 1700000000).head? = some (.storePrice 100) := by
  decide

/-- C2 (amended): every publish by the writer is exactly the four plain
stores price, volume, timestamp, valid := true, in that program order,
with no sequence-counter increment anywhere; after a completed publish
the record holds exactly the published values with the valid flag
set. -/
theorem C2_publish_plain_stores (p : ℚ) (v : Int) (t : Nat) (d : TradingData) :
    publishEvents p v t
      = [.storePrice p, .storeVolume v, .storeTimestamp t, .storeValid true] ∧
    runEvents d (publishEvents p v t)
      = { price := p, timestamp := t, volume := v, valid := true } ∧
    (publishEvents p v t).count .incrSeq = 0 :=
  ⟨rfl, rfl, rfl⟩

/-- C3 counterexample: the claim says a reader that completes a
snapshot observes exactly one writer transaction's triple.  With the
writer publishing (100, 1000, 1000) and then (151, 1001, 1001), a
reader whose price load lands after the second transaction's price
store but whose volume and timestamp loads landed at the end of the
first transaction completes a snapshot (151, 1000, 1000) that mixes
the two transactions and equals neither. -/
theorem C3_torn_snapshot_counterexample :
    readerSnapshot [(100, 1000, 1000), (151, 1001, 1001)] 5 4 4
      = (151, 1000, 1000) ∧
    readerSnapshot [(100, 1000, 1000), (151, 1001, 1001)] 5 4 4
      ≠ (100, 1000, 1000) ∧
    readerSnapshot [(100, 1000, 1000), (151, 1001, 1001)] 5 4 4
      ≠ (151, 1001, 1001) := by decide

/-- C3 (amended): each individual field a reader loads at any point of
a two-transaction writer trace is a value some single writer store
wrote to that field (or the field's initial zero) — the per-field
atomics rule out torn single fields — but nothing relates the fields
to each other, so a completed snapshot may mix fields of different
transactions. -/
theorem C3_per_field_atomicity (p₁ p₂ : ℚ) (v₁ v₂ : Int) (t₁ t₂ : Nat)
    (i : Nat) :
    ((writerStateAt [(p₁, v₁, t₁), (p₂, v₂, t₂)] i).price = 0 ∨
     (writerStateAt [(p₁, v₁, t₁), (p₂, v₂, t₂)] i).price = p₁ ∨
     (writerStateAt [(p₁, v₁, t₁), (p₂, v₂, t₂)] i).price = p₂) ∧
    ((writerStateAt [(p₁, v₁, t₁), (p₂, v₂, t₂)] i).volume = 0 ∨
     (writerStateAt [(p₁, v₁, t₁), (p₂, v₂, t₂)] i).volume = v₁ ∨
     (writerStateAt [(p₁, v₁, t₁), (p₂, v₂, t₂)] i).volume = v₂) ∧
    ((writerStateAt [(p₁, v₁, t₁), (p₂, v₂, t₂)] i).timestamp = 0 ∨
     (writerStateAt [(p₁, v₁, t₁), (p₂, v₂, t₂)] i).timestamp = t₁ ∨
     (writerStateAt [(p₁, v₁, t₁), (p₂, v₂, t₂)] i).timestamp = t₂) := by
  rcases i with _ | _ | _ | _ | _ | _ | _ | _ | i <;>
    simp [writerStateAt, runEvents, writerEvents, publishEvents, applyEvent,
      initTradingData, List.take_succ_cons, List.take_of_length_le]

/-- C4 counterexample: the claim says attaching with a size that
differs from the creator's fails with SizeMismatch and maps nothing.
With a segment of size 32 registered, attaching with requested size 16
succeeds and maps 16 bytes. -/
theorem C4_attach_size_counterexample :
    attach_memory_block "/trading_data" 16 true 1 [("/trading_data", 32)]
      = .ok ⟨4096, 16⟩ ∧ (16 : Nat) ≠ 32 :=
  ⟨rfl, by decide⟩

/-- C4 (amended): attach never compares the requested size with the
segment's registered size: for every existing segment and every
nonzero requested size differing from the actual one, attach succeeds
(absent resource failure) and maps exactly the requested number of
bytes, silently truncating or extending the view; no SizeMismatch
error exists in the code. -/
theorem C4_attach_no_size_check (name : String) (reqSize actual addr : Nat)
    (s : ShmState) (hex : segSize s name = some actual)
    (_hne : reqSize ≠ actual) (hreq : reqSize ≠ 0) :
    attach_memory_block name reqSize true addr s
      = .ok ⟨addr * pageSize, reqSize⟩ := by
  unfold attach_memory_block mmapShared
  simp [hex, hreq]

/-- C4 witness: the amended theorem applied to a segment of size 32
and a request of 16. -/
theorem C4_attach_no_size_check_witness :
    segSize [("/trading_data", 32)] "/trading_data" = some 32 ∧
    (16 : Nat) ≠ 32 ∧ (16 : Nat) ≠ 0 ∧
    attach_memory_block "/trading_data" 16 true 1 [("/trading_data", 32)]
      = .ok ⟨1 * pageSize, 16⟩ :=
  ⟨by decide, by decide, by decide,
   C4_attach_no_size_check "/trading_data" 16 32 1 [("/trading_data", 32)]
     (by decide) (by decide) (by decide)⟩

/-- C5: create on a name that is already registered fails with the
distinct AlreadyExists error ("Shared memory already exists - use
attach mode"), leaving the namespace unchanged, and a subsequent
attach on that same name succeeds (for the nonzero record size,
absent resource failure). -/
theorem C5_create_exists_attach (name : String) (sz : Nat) (f m : Bool)
    (addr addr2 a : Nat) (s : ShmState)
    (hex : segSize s name = some a) (hsz : sz ≠ 0) :
    create_memory_block name sz f m addr s = (s, .error .alreadyExists) ∧
    attach_memory_block name sz true addr2 s = .ok ⟨addr2 * pageSize, sz⟩ := by
  constructor
  · unfold create_memory_block
    simp [hex]
  · unfold attach_memory_block mmapShared
    simp [hex, hsz]

/-- C5 witness: the theorem applied to a registered segment of the
record's size. -/
theorem C5_create_exists_attach_witness :
    segSize [("/trading_data", 24)] "/trading_data" = some 24 ∧ (24 : Nat) ≠ 0 ∧
    (create_memory_block "/trading_data" 24 true true 1 [("/trading_data", 24)]
        = ([("/trading_data", 24)], .error .alreadyExists) ∧
      attach_memory_block "/trading_data" 24 true 2 [("/trading_data", 24)]
        = .ok ⟨2 * pageSize, 24⟩) :=
  ⟨by decide, by decide,
   C5_create_exists_attach "/trading_data" 24 true true 1 2 24
     [("/trading_data", 24)] (by decide) (by decide)⟩

/-- C6: for every handle obtained from mmap (page-aligned address,
nonzero length), detach reports success — never an observable failure
— and is idempotent: a second detach of the same handle succeeds and
leaves the process's address space exactly as one detach left it. -/
theorem C6_detach_idempotent (st : MapState) (addr size : Nat)
    (ha : addr % pageSize = 0) (hs : size ≠ 0) :
    (detach_from_memory_block st addr size).2 = true ∧
    detach_from_memory_block (detach_from_memory_block st addr size).1 addr size
      = ((detach_from_memory_block st addr size).1, true) := by
  unfold detach_from_memory_block munmap
  rw [if_neg (by simp [ha, hs])]
  refine ⟨rfl, ?_⟩
  rw [if_neg (by simp [ha, hs])]
  simp only [Prod.mk.injEq, and_true]
  apply flatten_unmapOne_of_outside
  intro m hm
  rw [List.mem_flatten] at hm
  obtain ⟨l, hl, hml⟩ := hm
  rw [List.mem_map] at hl
  obtain ⟨m₀, _, rfl⟩ := hl
  exact unmapOne_outside hml

/-- C6 witness: the theorem applied to a mapped record block at a
page-aligned address. -/
theorem C6_detach_idempotent_witness :
    ((4096 : Nat) % pageSize = 0) ∧ ((24 : Nat) ≠ 0) ∧
    ((detach_from_memory_block [⟨4096, 24⟩] 4096 24).2 = true ∧
      detach_from_memory_block
          (detach_from_memory_block [⟨4096, 24⟩] 4096 24).1 4096 24
        = ((detach_from_memory_block [⟨4096, 24⟩] 4096 24).1, true)) :=
  ⟨by decide, by decide, C6_detach_idempotent [⟨4096, 24⟩] 4096 24
    (by decide) (by decide)⟩

/-- C7: whenever the creating `SharedMemory<TradingData>` constructor
succeeds, the record it returns is the value-initialized one: price
0.0, timestamp 0, volume 0, valid false; and this is exactly the
record state before the writer's first publish (after zero stores of
any writer trace). -/
theorem C7_create_value_initialized (filename : String) (f m : Bool)
    (addr : Nat) (s : ShmState) (blk : MemBlock) (d : TradingData)
    (h : (sharedMemoryCreate filename f m addr s).2 = .ok (blk, d)) :
    d = initTradingData ∧ d.price = 0 ∧ d.timestamp = 0 ∧ d.volume = 0 ∧
      d.valid = false ∧ ∀ pubs : List Pub, writerStateAt pubs 0 = d := by
  have hd : d = initTradingData := by
    unfold sharedMemoryCreate at h
    split at h
    · simp at h
    · simp at h
      exact h.2.symm
  subst hd
  exact ⟨rfl, rfl, rfl, rfl, rfl, fun pubs => rfl⟩

/-- C7 witness: the theorem applied to a successful creation on an
empty namespace. -/
theorem C7_create_value_initialized_witness :
    (sharedMemoryCreate "/trading_data" true true 1 []).2
      = .ok (⟨pageSize, 24⟩, initTradingData) ∧
    (initTradingData = initTradingData ∧ initTradingData.price = 0 ∧
      initTradingData.timestamp = 0 ∧ initTradingData.volume = 0 ∧
      initTradingData.valid = false ∧
      ∀ pubs : List Pub, writerStateAt pubs 0 = initTradingData) :=
  ⟨rfl, C7_create_value_initialized "/trading_data" true true 1 []
    ⟨pageSize, 24⟩ initTradingData rfl⟩

/-- C8: when the configured executable path does not name an existing
runnable binary, the supervisor's start operation reports failure,
moves the process state to FAILED_TO_START, and never reports
RUNNING. -/
theorem C8_start_missing_binary (cfg : LauncherConfig)
    (runnable : List String) (h : cfg.python_executable ∉ runnable) :
    launcherStart cfg runnable = (.FAILED_TO_START, false) ∧
    (launcherStart cfg runnable).1 ≠ .RUNNING := by
  unfold launcherStart
  simp [h]

/-- C8 witness: the theorem applied to the configuration of
src/C++/src/main.cpp on a filesystem without the interpreter. -/
theorem C8_start_missing_binary_witness :
    (LauncherConfig.mk "../../Python/data_bridge.py" "/usr/bin/python3").python_executable
        ∉ ([] : List String) ∧
    (launcherStart
        (LauncherConfig.mk "../../Python/data_bridge.py" "/usr/bin/python3") []
      = (.FAILED_TO_START, false) ∧
      (launcherStart
          (LauncherConfig.mk "../../Python/data_bridge.py" "/usr/bin/python3") []).1
        ≠ .RUNNING) :=
  ⟨by decide,
   C8_start_missing_binary
     (LauncherConfig.mk "../../Python/data_bridge.py" "/usr/bin/python3") []
     (by decide)⟩

/-- C9: when create registers a fresh name but `ftruncate` or `mmap`
then fails, it reports the distinct error for the failing step and
unlinks the name first, so no segment stays registered under that name
and a later create with the same name succeeds. -/
theorem C9_failed_create_unlinks (name : String) (sz : Nat) (f m : Bool)
    (addr addr2 : Nat) (s : ShmState)
    (hfresh : segSize s name = none) (hsz : sz ≠ 0)
    (hfail : f = false ∨ m = false) :
    ((create_memory_block name sz f m addr s).2 = .error .setSizeFailed ∨
     (create_memory_block name sz f m addr s).2 = .error .mapFailed) ∧
    segSize (create_memory_block name sz f m addr s).1 name = none ∧
    (create_memory_block name sz true true addr2
        (create_memory_block name sz f m addr s).1).2
      = .ok ⟨addr2 * pageSize, sz⟩ := by
  have hres :
      (create_memory_block name sz f m addr s).1
        = segUnlink (segSet s name 0) name ∨
      (create_memory_block name sz f m addr s).1
        = segUnlink (segSet (segSet s name 0) name sz) name := by
    unfold create_memory_block mmapShared
    rcases hfail with rfl | rfl
    · simp [hfresh]
    · cases f <;> simp [hfresh]
  have herr :
      (create_memory_block name sz f m addr s).2 = .error .setSizeFailed ∨
      (create_memory_block name sz f m addr s).2 = .error .mapFailed := by
    unfold create_memory_block mmapShared
    rcases hfail with rfl | rfl
    · simp [hfresh]
    · cases f <;> simp [hfresh]
  have hnone : segSize (create_memory_block name sz f m addr s).1 name = none := by
    rcases hres with h | h <;> rw [h] <;> exact segSize_segUnlink _ _
  refine ⟨herr, hnone, ?_⟩
  rw [create_memory_block_ok name sz addr2 _ hnone hsz]

/-- C9 witness: the theorem applied to a fresh name whose `ftruncate`
fails. -/
theorem C9_failed_create_unlinks_witness :
    (segSize [] "/trading_data" = none) ∧ ((24 : Nat) ≠ 0) ∧
    (false = false ∨ false = false) ∧
    (((create_memory_block "/trading_data" 24 false true 1 []).2
        = .error .setSizeFailed ∨
      (create_memory_block "/trading_data" 24 false true 1 []).2
        = .error .mapFailed) ∧
     segSize (create_memory_block "/trading_data" 24 false true 1 []).1
        "/trading_data" = none ∧
     (create_memory_block "/trading_data" 24 true true 2
        (create_memory_block "/trading_data" 24 false true 1 []).1).2
       = .ok ⟨2 * pageSize, 24⟩) :=
  ⟨rfl, by decide, Or.inl rfl,
   C9_failed_create_unlinks "/trading_data" 24 false true 1 2 [] rfl
     (by decide) (Or.inl rfl)⟩

/-- C10 counterexample: the claim says the valid flag is stored true at
most once, together with the first publish.  The writer's trace for
two publishes contains two `valid := true` stores — one per publish. -/
theorem C10_store_true_counterexample :
    (writerEvents [((100 : ℚ), (1000 : Int), (1000 : Nat)), (151, 1200, 1001)]).count
        (.storeValid true) = 2 ∧
    ¬ (writerEvents [((100 : ℚ), (1000 : Int), (1000 : Nat)), (151, 1200, 1001)]).count
        (.storeValid true) ≤ 1 := by decide

/-- C10 (amended): in the writer process the valid flag starts false,
every publish (not only the first) stores true into it, no operation —
shutdown included — ever stores false into it, and hence its value is
monotone over the segment's lifetime: once true it stays true. -/
theorem C10_valid_monotone (pubs : List Pub) (i j : Nat) (e : WriterEvent)
    (hij : i ≤ j) (he : e ∈ writerEvents pubs) :
    (writerStateAt pubs 0).valid = false ∧ e ≠ .storeValid false ∧
    ((writerStateAt pubs i).valid = true →
      (writerStateAt pubs j).valid = true) := by
  refine ⟨rfl, writerEvents_no_store_false he, fun hi => ?_⟩
  have hj : j = i + (j - i) := by omega
  rw [writerStateAt, hj, List.take_add, runEvents, List.foldl_append]
  exact valid_preserved
    (fun x hx => writerEvents_no_store_false
      (List.mem_of_mem_drop (List.mem_of_mem_take hx))) hi

/-- C10 witness: the amended theorem applied to a one-publish trace at
the point just after the publish. -/
theorem C10_valid_monotone_witness :
    (4 ≤ 4) ∧
    (WriterEvent.storePrice 1 ∈ writerEvents [((1 : ℚ), (1 : Int), (1 : Nat))]) ∧
    ((writerStateAt [((1 : ℚ), (1 : Int), (1 : Nat))] 0).valid = false ∧
      WriterEvent.storePrice 1 ≠ .storeValid false ∧
      ((writerStateAt [((1 : ℚ), (1 : Int), (1 : Nat))] 4).valid = true →
        (writerStateAt [((1 : ℚ), (1 : Int), (1 : Nat))] 4).valid = true)) :=
  ⟨by decide, by decide,
   C10_valid_monotone [((1 : ℚ), (1 : Int), (1 : Nat))] 4 4 (.storePrice 1)
     (by decide) (by decide)⟩

end TradingApp
